import Mathlib

/-!
Verification development for the SmartCampus client-side admin scripts.

The JavaScript modules are shallowly embedded: each DOM/network side effect is
reified as a token or effect value, numbers follow the source's integer
arithmetic (page indices as `Int`), JS strings are Lean strings, or `List Char`
where character-level splitting matters, and every definition mirrors one
function of the source, keeping its name.  Namespaces follow the source files:
`AdminCommon` for the shared admin utilities module, `Superadmin` for
superadmin.js, `RegisterMod` for register.js, `Announcements` for the
announcements module that defines the generic debounce helper.

Modelling conventions, fixed once here:
* A JSON object is abstracted to the only fields the clients inspect
  (`error`, `message`, `success`); a field that is absent or falsy in JS is
  `none`.
* `JSON.parse` / `response.json()` is host behaviour, passed in as an oracle
  `parse : List Char → Except String Json` (the `String` is the rejection
  message).
* DOM elements that the source guards with an early return (`if (!el) return`)
  are modelled in their present state; the guard cases are identity and carry
  no content for the claims.
* Timers are modelled by an event list of (millisecond time, input value)
  pairs in chronological order; `setTimeout(f, w)` at time `t` schedules a
  fire at `t + w`, and `clearTimeout` drops the pending fire.
-/

namespace SmartCampus

/-- Abstract JSON value: only the fields the admin clients ever read.  A field
that is absent (or falsy) in the JS object is `none`. -/
structure Json where
  error : Option String
  message : Option String
  success : Option Bool
  deriving DecidableEq

/-- The `\x7bsuccess: true\x7d` object literal that the register-module client
fabricates for empty or unparsable 2xx bodies. -/
def successTrue : Json := { error := none, message := none, success := some true }

/-- An HTTP response as observed through the fetch API by the clients. -/
structure HttpResponse where
  status : Nat
  statusText : String
  contentType : Option (List Char)
  bodyText : List Char
  deriving DecidableEq

/-- `response.ok` of the fetch API: the status lies in the 2xx range. -/
def respOk (r : HttpResponse) : Bool :=
  decide (200 ≤ r.status ∧ r.status ≤ 299)

/-- The clients' test `contentType && contentType.includes('application/json')`
on the content-type header. -/
def contentTypeJson (r : HttpResponse) : Bool :=
  match r.contentType with
  | none => false
  | some ct => decide ("application/json".toList <:+: ct)

/-- Result of one `apiCall`: the value it settles with.  `success d` is a
normal return (`d = none` is the JS `null` return), `redirectLogin` is the
hard navigation to `/admin/login/` followed by `return null`, `thrown msg` is
an Error propagated to the caller. -/
inductive ApiOutcome where
  | success (data : Option Json)
  | redirectLogin
  | thrown (msg : String)
  deriving DecidableEq

/-- `apiCall` result together with its observable side effects: whether the
body was handed to the JSON parser, and the error toast, if one was shown. -/
structure ApiResult where
  outcome : ApiOutcome
  parsedBody : Bool
  toast : Option String
  deriving DecidableEq

/-- Whether an outcome is a thrown Error. -/
def ApiOutcome.isError : ApiOutcome → Bool
  | ApiOutcome.thrown _ => true
  | _ => false

/-- Whether an outcome is a normal (successful) return. -/
def ApiOutcome.isSuccess : ApiOutcome → Bool
  | ApiOutcome.success _ => true
  | _ => false

/-- The email regex `^[^\s@]+@[^\s@]+\.[^\s@]+$` shared verbatim by
superadmin.js and register.js (`isValidEmail`): some non-space non-@ characters,
one `@`, then a domain of non-space non-@ characters containing a dot that is
neither its first nor its last character. -/
def isValidEmail (email : String) : Bool :=
  match email.toList.splitOn '@' with
  | [lpart, dpart] =>
    !lpart.isEmpty && lpart.all (fun c => !c.isWhitespace) &&
      dpart.all (fun c => !c.isWhitespace) &&
      ((dpart.drop 1).dropLast.contains '.')
  | _ => false

/-- JS `String.prototype.trim()`: strips whitespace from both ends of the
string (computed structurally over the character list). -/
def jsTrim (s : String) : String :=
  String.mk (((s.toList.dropWhile Char.isWhitespace).reverse.dropWhile
    Char.isWhitespace).reverse)

/-- One validation check of the duplicated form validators: when `bad` holds,
`showFieldError(fid, msg)` fires and the form is marked invalid. -/
def fieldCheck (bad : Bool) (fid msg : String) : List (String × String) :=
  if bad then [(fid, msg)] else []

/-- Observable effects of a submit handler up to its network decision. -/
inductive SubmitEffect where
  | clearErrors
  | fieldError (fid msg : String)
  | netCall (method path : String)
  | toast (kind msg : String)
  deriving DecidableEq

/-- Whether an effect is a network request. -/
def SubmitEffect.isNetCall : SubmitEffect → Bool
  | SubmitEffect.netCall _ _ => true
  | _ => false

namespace AdminCommon

/-- Tokens of the HTML produced by the shared pagination renderer of the admin
common-utilities module: the Previous button (with its disabled flag), numbered
page buttons (with the active flag), ellipsis separators, and the Next button. -/
inductive PagToken where
  | prevBtn (disabled : Bool)
  | pageBtn (page : Int) (active : Bool)
  | ellipsis
  | nextBtn (disabled : Bool)
  deriving DecidableEq

/-- The index sequence i = 1, 2, ..., totalPages traversed by the page-number
for-loop of `renderPagination`. -/
def pageRange (totalPages : Int) : List Int :=
  (List.range totalPages.toNat).map (fun k : Nat => (k : Int) + 1)

/-- The condition of the first loop branch: loop index `i` gets a numbered
button when it is page 1, the last page, or lies in the current±2 window. -/
def pageShown (currentPage totalPages i : Int) : Prop :=
  i = 1 ∨ i = totalPages ∨ (currentPage - 2 ≤ i ∧ i ≤ currentPage + 2)

instance (p N i : Int) : Decidable (pageShown p N i) :=
  inferInstanceAs (Decidable (i = 1 ∨ i = N ∨ (p - 2 ≤ i ∧ i ≤ p + 2)))

/-- Body of the page-number loop of `renderPagination`: the token emitted at
loop index `i` (a numbered button under `pageShown`; an ellipsis at
current±3; nothing elsewhere). -/
def pageLoopToken (currentPage totalPages i : Int) : Option PagToken :=
  if pageShown currentPage totalPages i then
    some (PagToken.pageBtn i (decide (i = currentPage)))
  else if i = currentPage - 3 ∨ i = currentPage + 3 then
    some PagToken.ellipsis
  else
    none

/-- The token stream produced by `renderPagination(containerId, currentPage,
totalPages, onPageChange)`: a Previous button disabled exactly when
`currentPage === 1`, the loop tokens, and a Next button disabled exactly when
`currentPage === totalPages`. -/
def renderPagination (currentPage totalPages : Int) : List PagToken :=
  PagToken.prevBtn (decide (currentPage = 1)) ::
    ((pageRange totalPages).filterMap (pageLoopToken currentPage totalPages) ++
      [PagToken.nextBtn (decide (currentPage = totalPages))])

/-- The pages of the numbered buttons appearing in a token stream, in order. -/
def numberedPages (ts : List PagToken) : List Int :=
  ts.filterMap (fun t => match t with | PagToken.pageBtn i _ => some i | _ => none)

/-- Number of ellipsis separators in a token stream. -/
def ellipsisCount (ts : List PagToken) : Nat :=
  ts.countP (fun t => decide (t = PagToken.ellipsis))

/-- The loop condition under which index `i` gets an ellipsis. -/
def ellipsisAt (currentPage totalPages i : Int) : Prop :=
  ¬ pageShown currentPage totalPages i ∧ (i = currentPage - 3 ∨ i = currentPage + 3)

instance (p N i : Int) : Decidable (ellipsisAt p N i) :=
  inferInstanceAs (Decidable (_ ∧ _))

/-- Number of skipped gaps for the window of `renderPagination`: the left gap
is the skipped page interval `[2, currentPage-3]` between page 1 and the
window, the right gap is `[currentPage+3, totalPages-1]` between the window
and the last page; each contributes 1 when nonempty. -/
def gapCount (currentPage totalPages : Int) : Nat :=
  (if (Finset.Icc (2 : Int) (currentPage - 3)).Nonempty then 1 else 0) +
    (if (Finset.Icc (currentPage + 3) (totalPages - 1)).Nonempty then 1 else 0)

/-- The `goToPage` closure installed by `renderPagination`: it invokes
`onPageChange page` only when `1 <= page <= totalPages`, otherwise it does
nothing (`none`). -/
def goToPage (totalPages page : Int) : Option Int :=
  if 1 ≤ page ∧ page ≤ totalPages then some page else none

/-- JS `String.prototype.split` with a single-character separator, over the
character list of the string: `"a?b?c".split('?') = ["a","b","c"]`,
`"".split('?') = [""]`. -/
def splitOnChar (c : Char) : List Char → List (List Char)
  | [] => [[]]
  | a :: rest =>
    match splitOnChar c rest with
    | [] => if a = c then [[], []] else [[a]]
    | h :: t => if a = c then [] :: h :: t else (a :: h) :: t

/-- `buildApiEndpoint(endpoint)` of the admin common-utilities module, with the
page-global `window.COLLEGE_SLUG` passed in as `collegeSlug`: strips a leading
slash, splits off the query string at `'?'` (keeping `split('?')[1]`), appends
a trailing slash to the path part when absent, re-attaches the query string,
and prefixes `/api/<collegeSlug>/` (or the bare `/api/` base when the slug is
empty). -/
def buildApiEndpoint (collegeSlug endpoint : List Char) : List Char :=
  let cleanEndpoint := if endpoint.head? = some '/' then endpoint.drop 1 else endpoint
  let baseEndpoint :=
    if '?' ∈ cleanEndpoint then (splitOnChar '?' cleanEndpoint).getD 0 []
    else cleanEndpoint
  let queryString :=
    if '?' ∈ cleanEndpoint then '?' :: (splitOnChar '?' cleanEndpoint).getD 1 []
    else []
  let baseEndpoint2 :=
    if baseEndpoint.getLast? = some '/' then baseEndpoint else baseEndpoint ++ ['/']
  let finalEndpoint := baseEndpoint2 ++ queryString
  if collegeSlug ≠ [] then
    "/api/".toList ++ collegeSlug ++ ['/'] ++ finalEndpoint
  else
    "/api".toList ++ ['/'] ++ finalEndpoint

/-- A form inside a modal: input values and error-message text nodes, both
keyed by element id. -/
structure ModalForm where
  values : List (String × String)
  errorTexts : List (String × String)
  deriving DecidableEq

/-- A modal element of the common-utilities module: its `active` class and its
optional contained form. -/
structure Modal where
  active : Bool
  form : Option ModalForm
  deriving DecidableEq

/-- `closeModal(modalId)` of the common-utilities module, on a present modal
element: removes `active`; when the modal contains a form, `form.reset()`
(inputs back to their empty defaults) and `clearFormErrors` (every
`.error-message` text emptied). -/
def closeModal (m : Modal) : Modal :=
  { active := false
    form := m.form.map (fun f =>
      { values := f.values.map (fun kv => (kv.1, ""))
        errorTexts := f.errorTexts.map (fun kv => (kv.1, "")) }) }

end AdminCommon

namespace Superadmin

/-- The superadmin-local `renderPagination(totalPages)`: one numbered button
per page `1..totalPages` (active at `currentPage`), with no Previous/Next
buttons and no ellipses. -/
def renderPagination (currentPage totalPages : Int) : List AdminCommon.PagToken :=
  (AdminCommon.pageRange totalPages).map
    (fun i => AdminCommon.PagToken.pageBtn i (decide (i = currentPage)))

/-- The superadmin-local `goToPage(page)`: unconditionally stores the page and
re-fetches; it performs no range check of its own. -/
def goToPage (page : Int) : Int × Bool := (page, true)

/-- `apiCall(endpoint, options)` of superadmin.js, as a function of the
response (the request construction does not affect the settled value).  The
content-type header is checked first; a JSON-labelled body is handed to
`response.json()` (the `parse` oracle) before any status dispatch; 401/403
with a parsed JSON body redirect to `/admin/login/` and return null.  The
surrounding catch shows an error toast for every thrown Error and rethrows. -/
def apiCall (parse : List Char → Except String Json) (r : HttpResponse) : ApiResult :=
  if ¬ contentTypeJson r then
    if ¬ respOk r then
      let msg := "HTTP " ++ toString r.status ++ ": " ++ r.statusText
      { outcome := ApiOutcome.thrown msg, parsedBody := false, toast := some msg }
    else
      { outcome := ApiOutcome.success none, parsedBody := false, toast := none }
  else
    match parse r.bodyText with
    | Except.error e =>
      { outcome := ApiOutcome.thrown e, parsedBody := true, toast := some e }
    | Except.ok data =>
      if ¬ respOk r then
        if r.status = 401 ∨ r.status = 403 then
          { outcome := ApiOutcome.redirectLogin, parsedBody := true, toast := none }
        else
          let msg := data.error.getD (data.message.getD ("API request failed"))
          { outcome := ApiOutcome.thrown msg, parsedBody := true, toast := some msg }
      else
        { outcome := ApiOutcome.success (some data), parsedBody := true, toast := none }

/-- The debounce window of the college-search input handler in `setupForms`:
`setTimeout(..., 500)` after `clearTimeout(searchTimeout)` — the same timer
discipline as the generic announcements `debounce`, instantiated at 500 ms. -/
def searchDebounceMs : Nat := 500

/-- The college form data assembled by `handleCollegeSubmit` from the form
inputs. -/
structure CollegeFormData where
  name : String
  owner_name : String
  owner_email : String
  owner_phone : String
  location : String
  type : String
  address : String
  website : String
  status : String
  deriving DecidableEq

/-- The `showFieldError` calls fired by `validateCollegeForm(data)`, in source
order. -/
def collegeFormErrors (d : CollegeFormData) : List (String × String) :=
  fieldCheck (jsTrim d.name == "") "college-name" "College name is required" ++
  fieldCheck (jsTrim d.owner_name == "") "owner-name" "Owner/Principal name is required" ++
  fieldCheck (jsTrim d.owner_email == "" || !isValidEmail d.owner_email)
    "owner-email" "Valid email is required" ++
  fieldCheck (jsTrim d.owner_phone == "") "owner-phone" "Phone number is required" ++
  fieldCheck (jsTrim d.location == "") "location" "Location is required" ++
  fieldCheck (d.type == "") "college-type" "College type is required"

/-- `validateCollegeForm(data)`: runs the six required-field checks in source
order; returns the final `isValid` (true iff no check fired) and the
`showFieldError` calls fired. -/
def validateCollegeForm (d : CollegeFormData) : Bool × List (String × String) :=
  ((collegeFormErrors d).isEmpty, collegeFormErrors d)

/-- `handleCollegeSubmit(e)` up to and including its network decision:
`clearFormErrors()`, the validation (with its field-error effects), then —
only when valid — the PUT (edit) or POST (create) request through `apiCall`. -/
def handleCollegeSubmit (collegeId : Option Nat) (d : CollegeFormData) :
    List SubmitEffect :=
  let v := validateCollegeForm d
  SubmitEffect.clearErrors ::
    (v.2.map (fun e => SubmitEffect.fieldError e.1 e.2) ++
      (if v.1 then
        [match collegeId with
         | some cid => SubmitEffect.netCall ("PUT") ("/colleges/" ++ toString cid ++ "/")
         | none => SubmitEffect.netCall ("POST") ("/colleges/")]
       else []))

/-- The superadmin college modal: `active` class, the college-form input
values and the `.error-message` text nodes. -/
structure CollegeModal where
  active : Bool
  formValues : List (String × String)
  errorTexts : List (String × String)
  deriving DecidableEq

/-- superadmin `closeModal()`: removes `active`, `form.reset()` (inputs back
to empty defaults), `clearFormErrors()` (all error texts emptied). -/
def closeModal (m : CollegeModal) : CollegeModal :=
  { active := false
    formValues := m.formValues.map (fun kv => (kv.1, ""))
    errorTexts := m.errorTexts.map (fun kv => (kv.1, "")) }

/-- The module-level `detailModalData` record of superadmin.js. -/
structure DetailModalData where
  type : Option String
  currentPage : Int
  totalPages : Int
  searchTerm : String
  deriving DecidableEq

/-- `closeDetailModal()` on a present modal element: removes `active` (the
returned Bool is the modal's active state afterwards) and resets `type`,
`currentPage` and `searchTerm`; `totalPages` and `allData` are left as they
are. -/
def closeDetailModal (d : DetailModalData) : DetailModalData × Bool :=
  ({ d with type := none, currentPage := 1, searchTerm := "" }, false)

/-- `goToDetailPage(page)`: returns unchanged without fetching when the target
is outside `1..totalPages`; otherwise stores the page and issues
`loadDetailData` (second component: whether a fetch was issued). -/
def goToDetailPage (d : DetailModalData) (page : Int) : DetailModalData × Bool :=
  if page < 1 ∨ page > d.totalPages then (d, false)
  else ({ d with currentPage := page }, true)

/-- The module-level `collegesCardsData` record of superadmin.js. -/
structure CollegesCardsData where
  currentPage : Int
  totalPages : Int
  searchTerm : String
  deriving DecidableEq

/-- `goToCollegesCardsPage(page)`: returns unchanged without fetching when the
target is outside `1..totalPages`; otherwise stores the page and issues
`loadCollegesCards`. -/
def goToCollegesCardsPage (d : CollegesCardsData) (page : Int) :
    CollegesCardsData × Bool :=
  if page < 1 ∨ page > d.totalPages then (d, false)
  else ({ d with currentPage := page }, true)

end Superadmin

namespace RegisterMod

/-- `buildApiEndpoint(endpoint)` of register.js: requires a nonempty slug
(else it throws) and interpolates it verbatim — no slash normalization and no
query-string handling.  The `Option` is `none` for the thrown Error. -/
def buildApiEndpoint (collegeSlug endpoint : List Char) : Option (List Char) :=
  if collegeSlug = [] then none
  else some ("/api/".toList ++ collegeSlug ++ ['/'] ++ endpoint)

/-- `apiCall(endpoint, options)` of register.js, as a function of the
response.  Order of checks, as in the source: 204 first, then 401/403 (before
any body read), then the content-type header, then the body text — an empty
body or a body `JSON.parse` rejects is turned into `\x7bsuccess: true\x7d` when the
status is 2xx and a thrown Error otherwise.  The surrounding catch shows an
error toast for every thrown Error and rethrows. -/
def apiCall (parse : List Char → Except String Json) (r : HttpResponse) : ApiResult :=
  if r.status = 204 then
    { outcome := ApiOutcome.success (some successTrue), parsedBody := false, toast := none }
  else if r.status = 401 ∨ r.status = 403 then
    { outcome := ApiOutcome.redirectLogin, parsedBody := false, toast := none }
  else if ¬ contentTypeJson r then
    if ¬ respOk r then
      let msg := "HTTP " ++ toString r.status ++ ": " ++ r.statusText
      { outcome := ApiOutcome.thrown msg, parsedBody := false, toast := some msg }
    else
      { outcome := ApiOutcome.success none, parsedBody := false, toast := none }
  else if r.bodyText ≠ [] then
    match parse r.bodyText with
    | Except.ok data =>
      if ¬ respOk r then
        let msg := data.error.getD (data.message.getD ("API request failed"))
        { outcome := ApiOutcome.thrown msg, parsedBody := true, toast := some msg }
      else
        { outcome := ApiOutcome.success (some data), parsedBody := true, toast := none }
    | Except.error _ =>
      if respOk r then
        { outcome := ApiOutcome.success (some successTrue), parsedBody := true, toast := none }
      else
        let msg := "Invalid JSON response: " ++ r.statusText
        { outcome := ApiOutcome.thrown msg, parsedBody := true, toast := some msg }
  else
    if respOk r then
      { outcome := ApiOutcome.success (some successTrue), parsedBody := false, toast := none }
    else
      let msg := "Empty response: " ++ r.statusText
      { outcome := ApiOutcome.thrown msg, parsedBody := false, toast := some msg }

/-- The registration form data read from the form by the submit handler. -/
structure RegistrationFormData where
  school_name : String
  school_type : String
  school_address : String
  county_city : String
  school_contact_number : String
  school_email : String
  school_website : String
  owner_full_name : String
  position : String
  owner_email : String
  owner_phone : String
  username : String
  password : String
  deriving DecidableEq

/-- The `showFieldError` calls fired by `validateForm(formData)` of
register.js, in source order.  `new URL(...)` validity is host behaviour,
passed in as the oracle `urlOk`. -/
def registrationFormErrors (urlOk : String → Bool) (d : RegistrationFormData) :
    List (String × String) :=
  fieldCheck (jsTrim d.school_name == "") "school-name" "School name is required" ++
    fieldCheck (d.school_type == "") "school-type" "School type is required" ++
    fieldCheck (jsTrim d.school_address == "") "school-address" "School address is required" ++
    fieldCheck (jsTrim d.county_city == "") "county-city" "County/City is required" ++
    fieldCheck (jsTrim d.school_contact_number == "") "school-contact" "Contact number is required" ++
    fieldCheck (d.school_email == "" || !isValidEmail d.school_email)
      "school-email" "Valid school email is required" ++
    fieldCheck (d.school_website != "" && !urlOk d.school_website)
      "school-website" "Please enter a valid URL" ++
    fieldCheck (jsTrim d.owner_full_name == "") "owner-name" "Owner full name is required" ++
    fieldCheck (jsTrim d.position == "") "position" "Position is required" ++
    fieldCheck (d.owner_email == "" || !isValidEmail d.owner_email)
      "owner-email" "Valid email is required" ++
    fieldCheck (jsTrim d.owner_phone == "") "owner-phone" "Phone number is required" ++
    (if jsTrim d.username == "" then [("username", "Username is required")]
     else if d.username.length < 3 then
       [("username", "Username must be at least 3 characters")]
     else []) ++
    (if d.password == "" then [("password", "Password is required")]
     else if d.password.length < 6 then
       [("password", "Password must be at least 6 characters")]
     else [])

/-- `validateForm(formData)` of register.js: `clearAllErrors()` then the
checks of `registrationFormErrors` in source order; returns the final
`isValid` (true iff no check fired) and the `showFieldError` calls fired. -/
def validateForm (urlOk : String → Bool) (d : RegistrationFormData) :
    Bool × List (String × String) :=
  ((registrationFormErrors urlOk d).isEmpty, registrationFormErrors urlOk d)

/-- The registration submit handler up to its network decision: validation
(with its clear/field-error effects); on failure an error toast and no fetch,
on success the POST to `API_BASE_URL`. -/
def handleRegistrationSubmit (urlOk : String → Bool) (d : RegistrationFormData) :
    List SubmitEffect :=
  let v := validateForm urlOk d
  SubmitEffect.clearErrors ::
    (v.2.map (fun e => SubmitEffect.fieldError e.1 e.2) ++
      (if v.1 then [SubmitEffect.netCall ("POST") ("/api/schools/register")]
       else [SubmitEffect.toast ("error") ("Please fix the errors in the form")]))

/-- The `state.results` record of register.js. -/
structure ResultsState where
  loading : Bool
  data : List Json
  currentPage : Int
  totalPages : Int
  deriving DecidableEq

/-- The results module state: the `isFetchingResults` in-flight flag plus
`state.results`. -/
structure ResultsModule where
  isFetchingResults : Bool
  results : ResultsState
  deriving DecidableEq

/-- Entry of `fetchResults` up to issuing the network request: early return
when the results tab is not active; early return (drop) when a fetch is
already in flight; otherwise set the in-flight flag and the loading state and
issue the request (second component: whether a request was issued). -/
def fetchResultsEntry (sectionActive : Bool) (m : ResultsModule) :
    ResultsModule × Bool :=
  if ¬ sectionActive then (m, false)
  else if m.isFetchingResults then (m, false)
  else
    ({ m with
        isFetchingResults := true
        results := { m.results with loading := true } }, true)

/-- The paginated list envelope `\x7bresults, page, total_pages, count\x7d`; fields
absent in the response are `none`. -/
structure Envelope where
  results : Option (List Json)
  page : Option Int
  total_pages : Option Int
  deriving DecidableEq

/-- Continuation of `fetchResults` after `apiCall` resolves with `d`: clears
`loading` and the in-flight flag, then installs the envelope data (or the
empty-page defaults when `d` is null or has no `results` field). -/
def fetchResultsResolve (m : ResultsModule) (d : Option Envelope) : ResultsModule :=
  let m2 : ResultsModule :=
    { m with
        isFetchingResults := false
        results := { m.results with loading := false } }
  match d with
  | some env =>
    match env.results with
    | some rs =>
      { m2 with
          results :=
            { m2.results with
                data := rs
                currentPage := env.page.getD 1
                totalPages := env.total_pages.getD 1 } }
    | none =>
      { m2 with
          results := { m2.results with data := [], currentPage := 1, totalPages := 1 } }
  | none =>
    { m2 with
        results := { m2.results with data := [], currentPage := 1, totalPages := 1 } }

/-- The catch branch of `fetchResults`: clears `loading` and the in-flight
flag (the table body gets an error row; no state fields change). -/
def fetchResultsCatch (m : ResultsModule) : ResultsModule :=
  { m with
      isFetchingResults := false
      results := { m.results with loading := false } }

end RegisterMod

namespace Announcements

/-- Event-loop run of the `debounce(func, wait)` closure of the announcements
module over a chronological list of `(time, value)` input events, starting
from the pending timer `pending` (fire time and captured argument).  Each
event first lets an expired pending timer fire, then `clearTimeout` +
`setTimeout(later, wait)` replaces the pending timer with one at `t + wait`
capturing the event's value; after the last event the pending timer fires.
Returns the fired `func` calls as `(fire time, argument)` in order. -/
def debounceRun (wait : Nat) :
    Option (Nat × String) → List (Nat × String) → List (Nat × String)
  | pending, [] =>
    match pending with
    | some tv => [tv]
    | none => []
  | pending, e :: rest =>
    match pending with
    | some tv =>
      if tv.1 ≤ e.1 then tv :: debounceRun wait (some (e.1 + wait, e.2)) rest
      else debounceRun wait (some (e.1 + wait, e.2)) rest
    | none => debounceRun wait (some (e.1 + wait, e.2)) rest

/-- `debounce(func, wait)` applied to a fresh closure (no pending timer) and a
chronological input-event list: the `func(...args)` calls that fire. -/
def debounce (wait : Nat) (events : List (Nat × String)) : List (Nat × String) :=
  debounceRun wait none events

/-- The window the announcements module passes for its search input:
`debounce(loadAnnouncements, 300)`. -/
def searchDebounceMs : Nat := 300

end Announcements

namespace AdminCommon

theorem mem_pageRange {N i : Int} : i ∈ pageRange N ↔ 1 ≤ i ∧ i ≤ N := by
  unfold pageRange
  rw [List.mem_map]
  constructor
  · rintro ⟨k, hk, rfl⟩
    rw [List.mem_range] at hk
    omega
  · intro h
    refine ⟨(i - 1).toNat, ?_, ?_⟩
    · rw [List.mem_range]
      omega
    · omega

theorem pageRange_nodup (N : Int) : (pageRange N).Nodup := by
  unfold pageRange
  refine List.Nodup.map ?_ (List.nodup_range N.toNat)
  intro a b hab
  have hab2 : (a : Int) + 1 = (b : Int) + 1 := hab
  omega

theorem pageRange_toFinset (N : Int) : (pageRange N).toFinset = Finset.Icc 1 N := by
  ext i
  rw [List.mem_toFinset, mem_pageRange, Finset.mem_Icc]

theorem pageLoopToken_shown {p N i : Int} (h : pageShown p N i) :
    pageLoopToken p N i = some (PagToken.pageBtn i (decide (i = p))) := by
  unfold pageLoopToken
  rw [if_pos h]

theorem pageLoopToken_dots {p N i : Int} (h1 : ¬ pageShown p N i)
    (h2 : i = p - 3 ∨ i = p + 3) : pageLoopToken p N i = some PagToken.ellipsis := by
  unfold pageLoopToken
  rw [if_neg h1, if_pos h2]

theorem pageLoopToken_none {p N i : Int} (h1 : ¬ pageShown p N i)
    (h2 : ¬ (i = p - 3 ∨ i = p + 3)) : pageLoopToken p N i = none := by
  unfold pageLoopToken
  rw [if_neg h1, if_neg h2]

theorem numberedPages_cons_pageBtn (a : Int) (b : Bool) (rest : List PagToken) :
    numberedPages (PagToken.pageBtn a b :: rest) = a :: numberedPages rest := rfl

theorem numberedPages_cons_dots (rest : List PagToken) :
    numberedPages (PagToken.ellipsis :: rest) = numberedPages rest := rfl

theorem numberedPages_filterMap (p N : Int) (l : List Int) :
    numberedPages (l.filterMap (pageLoopToken p N))
      = l.filter (fun i => decide (pageShown p N i)) := by
  induction l with
  | nil => rfl
  | cons a l ih =>
    rw [List.filterMap_cons]
    by_cases hs : pageShown p N a
    · rw [pageLoopToken_shown hs, numberedPages_cons_pageBtn, ih,
        List.filter_cons_of_pos (by simpa using hs)]
    · rw [List.filter_cons_of_neg (by simpa using hs)]
      by_cases h2 : a = p - 3 ∨ a = p + 3
      · rw [pageLoopToken_dots hs h2, numberedPages_cons_dots, ih]
      · rw [pageLoopToken_none hs h2, ih]

theorem ellipses_filterMap (p N : Int) (l : List Int) :
    (l.filterMap (pageLoopToken p N)).countP (fun t => decide (t = PagToken.ellipsis))
      = l.countP (fun i => decide (ellipsisAt p N i)) := by
  induction l with
  | nil => rfl
  | cons a l ih =>
    rw [List.filterMap_cons]
    by_cases hs : pageShown p N a
    · rw [pageLoopToken_shown hs, List.countP_cons, List.countP_cons, ih]
      have hnot : ¬ ellipsisAt p N a := fun hc => hc.1 hs
      simp [hnot]
    · by_cases h2 : a = p - 3 ∨ a = p + 3
      · rw [pageLoopToken_dots hs h2, List.countP_cons, List.countP_cons, ih]
        have hyes : ellipsisAt p N a := ⟨hs, h2⟩
        simp [hyes]
      · rw [pageLoopToken_none hs h2, List.countP_cons, ih]
        have hnot : ¬ ellipsisAt p N a := fun hc => h2 hc.2
        simp [hnot]

theorem numberedPages_render (p N : Int) :
    numberedPages (renderPagination p N)
      = (pageRange N).filter (fun i => decide (pageShown p N i)) := by
  unfold renderPagination
  have h1 : numberedPages (PagToken.prevBtn (decide (p = 1)) ::
      ((pageRange N).filterMap (pageLoopToken p N) ++
        [PagToken.nextBtn (decide (p = N))]))
      = numberedPages ((pageRange N).filterMap (pageLoopToken p N) ++
        [PagToken.nextBtn (decide (p = N))]) := rfl
  rw [h1]
  unfold numberedPages
  rw [List.filterMap_append]
  have h2 : List.filterMap
      (fun t => match t with | PagToken.pageBtn i _ => some i | _ => none)
      [PagToken.nextBtn (decide (p = N))] = [] := rfl
  rw [h2, List.append_nil]
  exact numberedPages_filterMap p N (pageRange N)

theorem ellipsisCount_render (p N : Int) :
    ellipsisCount (renderPagination p N)
      = (pageRange N).countP (fun i => decide (ellipsisAt p N i)) := by
  unfold renderPagination ellipsisCount
  rw [List.countP_cons, List.countP_append, List.countP_cons]
  have h := ellipses_filterMap p N (pageRange N)
  rw [h]
  simp

theorem mem_numberedPages_render {p N i : Int} :
    i ∈ numberedPages (renderPagination p N) ↔ 1 ≤ i ∧ i ≤ N ∧ pageShown p N i := by
  rw [numberedPages_render, List.mem_filter]
  simp [mem_pageRange, and_assoc]

/-- Counting a decidable predicate over a duplicate-free list is a Finset card. -/
theorem countP_nodup_eq_card {α : Type} [DecidableEq α] (l : List α) (hl : l.Nodup)
    (q : α → Bool) : l.countP q = ((l.toFinset).filter (fun a => q a)).card := by
  rw [List.countP_eq_length_filter, ← List.toFinset_filter, List.card_toFinset,
    List.Nodup.dedup (List.Nodup.filter q hl)]

theorem numberedPages_length_le (p N : Int) (h1 : 1 ≤ p) (h2 : p ≤ N) :
    (numberedPages (renderPagination p N)).length ≤ min N.toNat 7 := by
  rw [numberedPages_render, ← List.countP_eq_length_filter,
    countP_nodup_eq_card _ (pageRange_nodup N), pageRange_toFinset]
  have hsub : ((Finset.Icc (1 : Int) N).filter (fun i => decide (pageShown p N i)))
      ⊆ ({1, N} : Finset Int) ∪ Finset.Icc (p - 2) (p + 2) := by
    intro i hi
    rw [Finset.mem_filter] at hi
    obtain ⟨hmem, hq⟩ := hi
    rw [decide_eq_true_eq] at hq
    rcases hq with h | h | h
    · simp [h]
    · simp [h]
    · simp [Finset.mem_union, Finset.mem_Icc, h]
  have hsub2 : ((Finset.Icc (1 : Int) N).filter (fun i => decide (pageShown p N i)))
      ⊆ Finset.Icc (1 : Int) N := Finset.filter_subset _ _
  have hb1 := Finset.card_le_card hsub
  have hb2 := Finset.card_le_card hsub2
  have hcard1 : (({1, N} : Finset Int) ∪ Finset.Icc (p - 2) (p + 2)).card ≤ 7 := by
    calc (({1, N} : Finset Int) ∪ Finset.Icc (p - 2) (p + 2)).card
        ≤ ({1, N} : Finset Int).card + (Finset.Icc (p - 2) (p + 2)).card :=
          Finset.card_union_le _ _
      _ ≤ 2 + 5 := by
          have ha : ({1, N} : Finset Int).card ≤ 2 := Finset.card_le_two
          have hc : (Finset.Icc (p - 2) (p + 2)).card = 5 := by
            rw [Int.card_Icc]
            omega
          omega
      _ = 7 := rfl
  have hcard2 : (Finset.Icc (1 : Int) N).card = N.toNat := by
    rw [Int.card_Icc]
    omega
  omega

theorem ellipsisAt_characterization (p N : Int) (h1 : 1 ≤ p) (h2 : p ≤ N) (i : Int) :
    (1 ≤ i ∧ i ≤ N ∧ ellipsisAt p N i) ↔
      ((2 ≤ p - 3 ∧ i = p - 3) ∨ (p + 3 ≤ N - 1 ∧ i = p + 3)) := by
  unfold ellipsisAt pageShown
  constructor
  · rintro ⟨hi1, hi2, hna, (rfl | rfl)⟩
    · left
      refine ⟨?_, rfl⟩
      push_neg at hna
      omega
    · right
      refine ⟨?_, rfl⟩
      push_neg at hna
      omega
  · rintro (⟨hc, rfl⟩ | ⟨hc, rfl⟩)
    · refine ⟨by omega, by omega, ?_, Or.inl rfl⟩
      rintro (h' | h' | h') <;> omega
    · refine ⟨by omega, by omega, ?_, Or.inr rfl⟩
      rintro (h' | h' | h') <;> omega

theorem ellipsisCount_eq_gapCount (p N : Int) (h1 : 1 ≤ p) (h2 : p ≤ N) :
    ellipsisCount (renderPagination p N) = gapCount p N := by
  rw [ellipsisCount_render, countP_nodup_eq_card _ (pageRange_nodup N),
    pageRange_toFinset]
  have hset : (Finset.Icc (1 : Int) N).filter (fun i => decide (ellipsisAt p N i))
      = ((if 2 ≤ p - 3 then ({p - 3} : Finset Int) else ∅) ∪
          (if p + 3 ≤ N - 1 then ({p + 3} : Finset Int) else ∅)) := by
    ext i
    rw [Finset.mem_filter, Finset.mem_Icc, decide_eq_true_eq, Finset.mem_union]
    constructor
    · rintro ⟨⟨hi1, hi2⟩, he⟩
      rcases (ellipsisAt_characterization p N h1 h2 i).mp ⟨hi1, hi2, he⟩ with
        ⟨hc, rfl⟩ | ⟨hc, rfl⟩
      · left
        rw [if_pos hc]
        exact Finset.mem_singleton_self _
      · right
        rw [if_pos hc]
        exact Finset.mem_singleton_self _
    · intro hm
      rcases hm with hm | hm
      · by_cases hc : 2 ≤ p - 3
        · rw [if_pos hc, Finset.mem_singleton] at hm
          subst hm
          have h3 := (ellipsisAt_characterization p N h1 h2 (p - 3)).mpr
            (Or.inl ⟨hc, rfl⟩)
          exact ⟨⟨h3.1, h3.2.1⟩, h3.2.2⟩
        · rw [if_neg hc] at hm
          exact absurd hm (Finset.not_mem_empty _)
      · by_cases hc : p + 3 ≤ N - 1
        · rw [if_pos hc, Finset.mem_singleton] at hm
          subst hm
          have h3 := (ellipsisAt_characterization p N h1 h2 (p + 3)).mpr
            (Or.inr ⟨hc, rfl⟩)
          exact ⟨⟨h3.1, h3.2.1⟩, h3.2.2⟩
        · rw [if_neg hc] at hm
          exact absurd hm (Finset.not_mem_empty _)
  rw [hset]
  unfold gapCount
  simp only [Finset.nonempty_Icc]
  by_cases hl : 2 ≤ p - 3
  · by_cases hr : p + 3 ≤ N - 1
    · rw [if_pos hl, if_pos hl, if_pos hr, if_pos hr,
        Finset.card_union_of_disjoint (by
          rw [Finset.disjoint_singleton]
          omega)]
      simp
    · rw [if_pos hl, if_pos hl, if_neg hr, if_neg hr, Finset.union_empty]
      simp
  · by_cases hr : p + 3 ≤ N - 1
    · rw [if_neg hl, if_neg hl, if_pos hr, if_pos hr, Finset.empty_union]
      simp
    · rw [if_neg hl, if_neg hl, if_neg hr, if_neg hr, Finset.union_empty]
      simp

theorem renderPagination_headToken (p N : Int) :
    (renderPagination p N).head? = some (PagToken.prevBtn (decide (p = 1))) := rfl

theorem renderPagination_lastToken (p N : Int) :
    (renderPagination p N).getLast? = some (PagToken.nextBtn (decide (p = N))) := by
  unfold renderPagination
  rw [← List.cons_append, List.getLast?_concat]

end AdminCommon

namespace Superadmin

theorem numberedPages_render_all (p N : Int) :
    AdminCommon.numberedPages (renderPagination p N) = AdminCommon.pageRange N := by
  simp only [renderPagination, AdminCommon.numberedPages, List.filterMap_map]
  exact List.filterMap_some _

end Superadmin

namespace AdminCommon

theorem pageRange_length (N : Int) : (pageRange N).length = N.toNat := by
  simp [pageRange]

theorem splitOnChar_ne_nil (c : Char) (l : List Char) : splitOnChar c l ≠ [] := by
  cases l with
  | nil => simp [splitOnChar]
  | cons a rest =>
    unfold splitOnChar
    cases hs : splitOnChar c rest with
    | nil => split_ifs <;> simp
    | cons h t => split_ifs <;> simp

theorem splitOnChar_no_sep {c : Char} {l : List Char} (h : c ∉ l) :
    splitOnChar c l = [l] := by
  induction l with
  | nil => rfl
  | cons a rest ih =>
    have hac : a ≠ c := fun hc => h (hc ▸ List.mem_cons_self a rest)
    have hrest : c ∉ rest := fun hc => h (List.mem_cons_of_mem a hc)
    unfold splitOnChar
    rw [ih hrest]
    simp [hac]

theorem splitOnChar_sep_append {c : Char} {p q : List Char} (h : c ∉ p) :
    splitOnChar c (p ++ c :: q) = p :: splitOnChar c q := by
  induction p with
  | nil =>
    cases hs : splitOnChar c q with
    | nil => exact absurd hs (splitOnChar_ne_nil c q)
    | cons h0 t0 =>
      simp only [List.nil_append]
      unfold splitOnChar
      rw [hs]
      simp
  | cons a p ih =>
    have hac : a ≠ c := fun hc => h (hc ▸ List.mem_cons_self a p)
    have hp : c ∉ p := fun hc => h (List.mem_cons_of_mem a hc)
    simp only [List.cons_append]
    unfold splitOnChar
    rw [ih hp]
    simp only [if_neg hac]
    cases q with
    | nil => rfl
    | cons b bs => rfl

theorem buildApiEndpoint_plain (slug ep : List Char) (hslug : slug ≠ [])
    (hhead : ep.head? ≠ some '/') (hq : '?' ∉ ep) :
    buildApiEndpoint slug ep
      = "/api/".toList ++ slug ++ '/' ::
          (if ep.getLast? = some '/' then ep else ep ++ ['/']) := by
  unfold buildApiEndpoint
  simp only [if_neg hhead, if_neg hq, if_pos hslug]
  by_cases hl : ep.getLast? = some '/'
  · rw [if_pos hl]
    simp
  · rw [if_neg hl]
    simp

theorem buildApiEndpoint_query (slug pe q : List Char) (hslug : slug ≠ [])
    (hhead : (pe ++ '?' :: q).head? ≠ some '/') (hp : '?' ∉ pe) (hq : '?' ∉ q) :
    buildApiEndpoint slug (pe ++ '?' :: q)
      = "/api/".toList ++ slug ++ '/' ::
          ((if pe.getLast? = some '/' then pe else pe ++ ['/']) ++ '?' :: q) := by
  have hmem : '?' ∈ pe ++ '?' :: q := by
    rw [List.mem_append]
    exact Or.inr (List.mem_cons_self _ _)
  have hsplit : splitOnChar '?' (pe ++ '?' :: q) = pe :: splitOnChar '?' q :=
    splitOnChar_sep_append hp
  have hsplitq : splitOnChar '?' q = [q] := splitOnChar_no_sep hq
  simp only [buildApiEndpoint, if_neg hhead, if_pos hmem, hsplit, hsplitq,
    if_pos hslug, List.getD_cons_zero, List.getD_cons_succ]
  by_cases hl : pe.getLast? = some '/'
  · rw [if_pos hl]
    simp
  · rw [if_neg hl]
    simp

end AdminCommon

namespace Announcements

theorem debounceRun_dense (wait : Nat) (es : List (Nat × String)) :
    ∀ (ft : Nat) (pv : String),
      es.Chain' (fun a b => b.1 < a.1 + wait) →
      (∀ b ∈ es.head?, b.1 < ft) →
      debounceRun wait (some (ft, pv)) es
        = [match es.getLast? with
           | none => (ft, pv)
           | some e => (e.1 + wait, e.2)] := by
  induction es with
  | nil =>
    intro ft pv hch hh
    rfl
  | cons e rest ih =>
    intro ft pv hch hh
    have he : e.1 < ft := hh e rfl
    rw [List.chain'_cons'] at hch
    obtain ⟨hhead, htail⟩ := hch
    have hstep : debounceRun wait (some (ft, pv)) (e :: rest)
        = if ft ≤ e.1 then
            (ft, pv) :: debounceRun wait (some (e.1 + wait, e.2)) rest
          else debounceRun wait (some (e.1 + wait, e.2)) rest := rfl
    rw [hstep, if_neg (by omega), ih (e.1 + wait) e.2 htail hhead]
    cases rest with
    | nil => rfl
    | cons r rs =>
      rw [List.getLast?_cons_cons]
      cases hgl : (r :: rs).getLast? with
      | none => simp at hgl
      | some x => rfl

end Announcements

/-- C1 counterexample: with totalPages N = 10 and currentPage p = 1 (so
1 ≤ p ≤ N), the shared pagination renderer emits 4 numbered page buttons and
the superadmin-local one emits 10 — neither equals min(N, 7) = 7, refuting
"renders exactly min(N, 7) numbered page buttons". -/
theorem C1_counterexample :
    1 ≤ (1 : Int) ∧ (1 : Int) ≤ 10 ∧
      ((AdminCommon.numberedPages (AdminCommon.renderPagination 1 10)).length : Int)
        ≠ min 10 7 ∧
      ((AdminCommon.numberedPages (Superadmin.renderPagination 1 10)).length : Int)
        ≠ min 10 7 := by
  decide

/-- C1 (amended): for every totalPages N ≥ 1 and currentPage p with
1 ≤ p ≤ N, the shared Pagination Renderer renders at most min(N, 7) numbered
page buttons, and the buttons for page 1 and page N are always among them;
the superadmin-local renderPagination instead renders exactly N numbered
buttons, again including pages 1 and N. -/
theorem C1_window_bound (p N : Int) (h1 : 1 ≤ p) (h2 : p ≤ N) :
    (AdminCommon.numberedPages (AdminCommon.renderPagination p N)).length
        ≤ min N.toNat 7 ∧
    (1 : Int) ∈ AdminCommon.numberedPages (AdminCommon.renderPagination p N) ∧
    N ∈ AdminCommon.numberedPages (AdminCommon.renderPagination p N) ∧
    (AdminCommon.numberedPages (Superadmin.renderPagination p N)).length = N.toNat ∧
    (1 : Int) ∈ AdminCommon.numberedPages (Superadmin.renderPagination p N) ∧
    N ∈ AdminCommon.numberedPages (Superadmin.renderPagination p N) := by
  have h1N : (1 : Int) ≤ N := le_trans h1 h2
  refine ⟨AdminCommon.numberedPages_length_le p N h1 h2, ?_, ?_, ?_, ?_, ?_⟩
  · exact AdminCommon.mem_numberedPages_render.mpr ⟨le_refl 1, h1N, Or.inl rfl⟩
  · exact AdminCommon.mem_numberedPages_render.mpr ⟨h1N, le_refl N, Or.inr (Or.inl rfl)⟩
  · rw [Superadmin.numberedPages_render_all, AdminCommon.pageRange_length]
  · rw [Superadmin.numberedPages_render_all]
    exact AdminCommon.mem_pageRange.mpr ⟨le_refl 1, h1N⟩
  · rw [Superadmin.numberedPages_render_all]
    exact AdminCommon.mem_pageRange.mpr ⟨h1N, le_refl N⟩

/-- C1 witness: the amended bound instantiated at currentPage 3 of 9 pages. -/
theorem C1_window_bound_witness :
    1 ≤ (3 : Int) ∧ (3 : Int) ≤ 9 ∧
      ((AdminCommon.numberedPages (AdminCommon.renderPagination 3 9)).length
          ≤ min (9 : Int).toNat 7 ∧
        (1 : Int) ∈ AdminCommon.numberedPages (AdminCommon.renderPagination 3 9) ∧
        (9 : Int) ∈ AdminCommon.numberedPages (AdminCommon.renderPagination 3 9) ∧
        (AdminCommon.numberedPages (Superadmin.renderPagination 3 9)).length
          = (9 : Int).toNat ∧
        (1 : Int) ∈ AdminCommon.numberedPages (Superadmin.renderPagination 3 9) ∧
        (9 : Int) ∈ AdminCommon.numberedPages (Superadmin.renderPagination 3 9)) :=
  ⟨by decide, by decide, C1_window_bound 3 9 (by decide) (by decide)⟩

/-- C3 counterexample: the superadmin-local renderPagination (the renderer
behind loadColleges) refutes the claim: at currentPage 1 of 10 it emits a
numbered button for page 5 (outside {1, 10} and the 1±2 window) and no
ellipsis despite one skipped gap; at the claim's scenario currentPage 2 of 3
it emits no Previous and no Next button at all, so neither is "enabled". -/
theorem C3_counterexample :
    1 ≤ (1 : Int) ∧ (1 : Int) ≤ 10 ∧
      (5 : Int) ∈ AdminCommon.numberedPages (Superadmin.renderPagination 1 10) ∧
      ¬ ((5 : Int) = 1 ∨ (5 : Int) = 10 ∨
          ((1 : Int) - 2 ≤ 5 ∧ (5 : Int) ≤ 1 + 2)) ∧
      AdminCommon.ellipsisCount (Superadmin.renderPagination 1 10) = 0 ∧
      AdminCommon.gapCount 1 10 = 1 ∧
      AdminCommon.PagToken.prevBtn false ∉ Superadmin.renderPagination 2 3 ∧
      AdminCommon.PagToken.nextBtn false ∉ Superadmin.renderPagination 2 3 := by
  refine ⟨by decide, by decide, by decide, by decide, by decide, ?_, by decide, by decide⟩
  unfold AdminCommon.gapCount
  rw [if_neg (by rw [Finset.nonempty_Icc]; omega),
    if_pos (by rw [Finset.nonempty_Icc]; omega)]

/-- C3 (amended): for every pair with 1 ≤ currentPage ≤ totalPages, the
shared renderer emits numbered buttons exactly for page 1, page totalPages
and the pages within currentPage±2; exactly one ellipsis per skipped gap
(left gap [2, currentPage-3], right gap [currentPage+3, totalPages-1]), not
one per skipped page; its Previous is disabled iff currentPage = 1 and its
Next is disabled iff currentPage = totalPages (so both are enabled at
currentPage 2 of 3).  The superadmin-local renderPagination used by
loadColleges instead emits one numbered button for every page, no ellipses,
and no Previous/Next buttons at all. -/
theorem C3_window_exact (p N : Int) (h1 : 1 ≤ p) (h2 : p ≤ N) :
    (∀ i : Int,
      i ∈ AdminCommon.numberedPages (AdminCommon.renderPagination p N) ↔
        (1 ≤ i ∧ i ≤ N ∧ (i = 1 ∨ i = N ∨ (p - 2 ≤ i ∧ i ≤ p + 2)))) ∧
    AdminCommon.ellipsisCount (AdminCommon.renderPagination p N)
      = AdminCommon.gapCount p N ∧
    (AdminCommon.renderPagination p N).head?
      = some (AdminCommon.PagToken.prevBtn (decide (p = 1))) ∧
    (AdminCommon.renderPagination p N).getLast?
      = some (AdminCommon.PagToken.nextBtn (decide (p = N))) ∧
    AdminCommon.numberedPages (Superadmin.renderPagination p N)
      = AdminCommon.pageRange N ∧
    AdminCommon.ellipsisCount (Superadmin.renderPagination p N) = 0 ∧
    (∀ b : Bool, AdminCommon.PagToken.prevBtn b ∉ Superadmin.renderPagination p N) ∧
    (∀ b : Bool, AdminCommon.PagToken.nextBtn b ∉ Superadmin.renderPagination p N) := by
  refine ⟨?_, AdminCommon.ellipsisCount_eq_gapCount p N h1 h2,
    AdminCommon.renderPagination_headToken p N,
    AdminCommon.renderPagination_lastToken p N,
    Superadmin.numberedPages_render_all p N, ?_, ?_, ?_⟩
  · intro i
    exact AdminCommon.mem_numberedPages_render
  · simp [Superadmin.renderPagination, AdminCommon.ellipsisCount, List.countP_map,
      Function.comp]
  · intro b hb
    simp [Superadmin.renderPagination, List.mem_map] at hb
  · intro b hb
    simp [Superadmin.renderPagination, List.mem_map] at hb

/-- C3 witness: the claim's scenario currentPage = 2, totalPages = 3: the
shared renderer shows both Previous and Next enabled, while the
superadmin-local renderer emits only the three numbered buttons. -/
theorem C3_window_exact_witness :
    1 ≤ (2 : Int) ∧ (2 : Int) ≤ 3 ∧
      AdminCommon.ellipsisCount (AdminCommon.renderPagination 2 3)
        = AdminCommon.gapCount 2 3 ∧
      (AdminCommon.renderPagination 2 3).head?
        = some (AdminCommon.PagToken.prevBtn false) ∧
      (AdminCommon.renderPagination 2 3).getLast?
        = some (AdminCommon.PagToken.nextBtn false) ∧
      AdminCommon.numberedPages (Superadmin.renderPagination 2 3)
        = AdminCommon.pageRange 3 ∧
      AdminCommon.ellipsisCount (Superadmin.renderPagination 2 3) = 0 := by
  have h := C3_window_exact 2 3 (by decide) (by decide)
  exact ⟨by decide, by decide, h.2.1, by simpa using h.2.2.1,
    by simpa using h.2.2.2.1, h.2.2.2.2.1, h.2.2.2.2.2.1⟩

/-- C10: a page-navigation request outside 1..totalPages leaves the stored
state unchanged and issues no fetch in the detail modal, the colleges-cards
modal and the shared goToPage closure; consequently user navigation preserves
the invariant 1 ≤ currentPage ≤ totalPages. -/
theorem C10_navigation_guard (dd : Superadmin.DetailModalData)
    (cc : Superadmin.CollegesCardsData) (page N : Int) :
    (¬ (1 ≤ page ∧ page ≤ dd.totalPages) →
      Superadmin.goToDetailPage dd page = (dd, false)) ∧
    (¬ (1 ≤ page ∧ page ≤ cc.totalPages) →
      Superadmin.goToCollegesCardsPage cc page = (cc, false)) ∧
    (¬ (1 ≤ page ∧ page ≤ N) → AdminCommon.goToPage N page = none) ∧
    (1 ≤ dd.currentPage ∧ dd.currentPage ≤ dd.totalPages →
      1 ≤ (Superadmin.goToDetailPage dd page).1.currentPage ∧
        (Superadmin.goToDetailPage dd page).1.currentPage
          ≤ (Superadmin.goToDetailPage dd page).1.totalPages) ∧
    (1 ≤ cc.currentPage ∧ cc.currentPage ≤ cc.totalPages →
      1 ≤ (Superadmin.goToCollegesCardsPage cc page).1.currentPage ∧
        (Superadmin.goToCollegesCardsPage cc page).1.currentPage
          ≤ (Superadmin.goToCollegesCardsPage cc page).1.totalPages) := by
  unfold Superadmin.goToDetailPage Superadmin.goToCollegesCardsPage AdminCommon.goToPage
  refine ⟨?_, ?_, ?_, ?_, ?_⟩
  · intro h
    rw [if_pos (by omega)]
  · intro h
    rw [if_pos (by omega)]
  · intro h
    rw [if_neg (by omega)]
  · intro h
    split_ifs with hc
    · exact ⟨h.1, h.2⟩
    · refine ⟨?_, ?_⟩ <;> simp <;> omega
  · intro h
    split_ifs with hc
    · exact ⟨h.1, h.2⟩
    · refine ⟨?_, ?_⟩ <;> simp <;> omega

/-- C10 witness: page 9 is out of range for a detail modal on page 2 of 5 and
a cards modal on page 1 of 3; no state changes, no fetch, invariant kept. -/
theorem C10_navigation_guard_witness :
    Superadmin.goToDetailPage
        { type := none, currentPage := 2, totalPages := 5, searchTerm := "" } 9
      = ({ type := none, currentPage := 2, totalPages := 5, searchTerm := "" }, false) ∧
    Superadmin.goToCollegesCardsPage
        { currentPage := 1, totalPages := 3, searchTerm := "" } 9
      = ({ currentPage := 1, totalPages := 3, searchTerm := "" }, false) ∧
    AdminCommon.goToPage 3 9 = none ∧
    (1 ≤ (Superadmin.goToDetailPage
          { type := none, currentPage := 2, totalPages := 5, searchTerm := "" } 9).1.currentPage ∧
      (Superadmin.goToDetailPage
          { type := none, currentPage := 2, totalPages := 5, searchTerm := "" } 9).1.currentPage
        ≤ (Superadmin.goToDetailPage
          { type := none, currentPage := 2, totalPages := 5, searchTerm := "" } 9).1.totalPages) := by
  have h := C10_navigation_guard
    { type := none, currentPage := 2, totalPages := 5, searchTerm := "" }
    { currentPage := 1, totalPages := 3, searchTerm := "" } 9 3
  exact ⟨h.1 (by decide), h.2.1 (by decide), h.2.2.1 (by decide),
    h.2.2.2.1 (by decide)⟩

/-- C4 counterexample: the announcements module debounces its search input
with a 300 ms window (`debounce(loadAnnouncements, 300)`), not a fixed 500 ms:
input events at t = 0 and t = 400 are closer than 500 ms apart, yet two
fetches fire (at 300 ms with the first value and at 700 ms with the second),
refuting "fixed 500ms window ... exactly one fetch". -/
theorem C4_counterexample :
    Announcements.searchDebounceMs = 300 ∧
    Announcements.debounce Announcements.searchDebounceMs [(0, "a"), (400, "ab")]
      = [(300, "a"), (700, "ab")] ∧
    (Announcements.debounce Announcements.searchDebounceMs
        [(0, "a"), (400, "ab")]).length ≠ 1 := by
  decide

/-- C4 (amended): debounced search is trailing-edge with a fixed
per-call-site window (500 ms for the superadmin college search, 300 ms for
the announcements search): every new input event cancels the pending timer,
there is no leading-edge call, and any chronological event sequence with
consecutive events closer than the window apart produces exactly one fetch,
at the last event's time plus the window, carrying the last event's value. -/
theorem C4_trailing_debounce (w : Nat) (e : Nat × String) (es : List (Nat × String))
    (hch : (e :: es).Chain' (fun a b => a.1 < b.1 ∧ b.1 < a.1 + w)) :
    Announcements.debounce w (e :: es)
      = [(((e :: es).getLastD e).1 + w, ((e :: es).getLastD e).2)] := by
  unfold Announcements.debounce
  have hstep : Announcements.debounceRun w none (e :: es)
      = Announcements.debounceRun w (some (e.1 + w, e.2)) es := rfl
  rw [hstep]
  rw [List.chain'_cons'] at hch
  obtain ⟨hhead, htail⟩ := hch
  have htail2 : es.Chain' (fun a b => b.1 < a.1 + w) :=
    htail.imp (fun a b hab => hab.2)
  have hh : ∀ b ∈ es.head?, b.1 < e.1 + w := fun b hb => (hhead b hb).2
  rw [Announcements.debounceRun_dense w es (e.1 + w) e.2 htail2 hh]
  rw [List.getLastD_cons, List.getLastD_eq_getLast?]
  cases hgl : es.getLast? with
  | none => rfl
  | some l => rfl

/-- C4 witness: three input events at 0, 100 and 400 ms under the 500 ms
superadmin search window produce exactly one fetch, at 900 ms, with the value
of the last event. -/
theorem C4_trailing_debounce_witness :
    List.Chain' (fun a b => a.1 < b.1 ∧ b.1 < a.1 + Superadmin.searchDebounceMs)
        [(0, "a"), (100, "ab"), (400, "abc")] ∧
    Announcements.debounce Superadmin.searchDebounceMs
        [(0, "a"), (100, "ab"), (400, "abc")]
      = [(900, "abc")] := by
  refine ⟨by norm_num [List.chain'_cons, Superadmin.searchDebounceMs], ?_⟩
  have h := C4_trailing_debounce Superadmin.searchDebounceMs (0, "a")
    [(100, "ab"), (400, "abc")]
    (by norm_num [List.chain'_cons, Superadmin.searchDebounceMs])
  exact h.trans (by decide)

/-- C8: while `isFetchingResults` is set, any further call to fetchResults
returns immediately — no request is issued and the state is unchanged — and
the flag is cleared on both the resolve path and the catch path. -/
theorem C8_inflight_guard (m : RegisterMod.ResultsModule) (a : Bool)
    (d : Option RegisterMod.Envelope) (h : m.isFetchingResults = true) :
    RegisterMod.fetchResultsEntry a m = (m, false) ∧
    (RegisterMod.fetchResultsResolve m d).isFetchingResults = false ∧
    (RegisterMod.fetchResultsCatch m).isFetchingResults = false := by
  refine ⟨?_, ?_, rfl⟩
  · unfold RegisterMod.fetchResultsEntry
    cases a
    · simp
    · simp [h]
  · rcases d with _ | ⟨er, ep, et⟩
    · rfl
    · cases er <;> rfl

/-- C8 witness: with the flag set, a concrete fetchResults call is dropped
without state change, and both completions clear the flag. -/
theorem C8_inflight_guard_witness :
    ({ isFetchingResults := true,
        results := { loading := true, data := [], currentPage := 1, totalPages := 1 } }
          : RegisterMod.ResultsModule).isFetchingResults = true ∧
    RegisterMod.fetchResultsEntry true
        { isFetchingResults := true,
          results := { loading := true, data := [], currentPage := 1, totalPages := 1 } }
      = ({ isFetchingResults := true,
           results := { loading := true, data := [], currentPage := 1, totalPages := 1 } },
          false) ∧
    (RegisterMod.fetchResultsResolve
        { isFetchingResults := true,
          results := { loading := true, data := [], currentPage := 1, totalPages := 1 } }
        none).isFetchingResults = false ∧
    (RegisterMod.fetchResultsCatch
        { isFetchingResults := true,
          results := { loading := true, data := [], currentPage := 1, totalPages := 1 } }
        ).isFetchingResults = false := by
  have h := C8_inflight_guard
    { isFetchingResults := true,
      results := { loading := true, data := [], currentPage := 1, totalPages := 1 } }
    true none rfl
  exact ⟨rfl, h.1, h.2.1, h.2.2⟩

/-- C9: the transition to the closed state resets the form (all input fields
cleared) and clears every per-field error text, for the shared closeModal and
the superadmin closeModal; closeDetailModal deactivates the modal and resets
the detail-modal type, page and search term. -/
theorem C9_close_resets (m1 : AdminCommon.Modal) (m2 : Superadmin.CollegeModal)
    (dd : Superadmin.DetailModalData) :
    (AdminCommon.closeModal m1).active = false ∧
    (∀ f ∈ (AdminCommon.closeModal m1).form,
      (∀ kv ∈ f.values, kv.2 = "") ∧ (∀ kv ∈ f.errorTexts, kv.2 = "")) ∧
    (Superadmin.closeModal m2).active = false ∧
    (∀ kv ∈ (Superadmin.closeModal m2).formValues, kv.2 = "") ∧
    (∀ kv ∈ (Superadmin.closeModal m2).errorTexts, kv.2 = "") ∧
    (Superadmin.closeDetailModal dd).2 = false ∧
    (Superadmin.closeDetailModal dd).1.type = none ∧
    (Superadmin.closeDetailModal dd).1.currentPage = 1 ∧
    (Superadmin.closeDetailModal dd).1.searchTerm = "" := by
  refine ⟨rfl, ?_, rfl, ?_, ?_, rfl, rfl, rfl, rfl⟩
  · intro f hf
    simp only [AdminCommon.closeModal, Option.mem_def, Option.map_eq_some'] at hf
    obtain ⟨g, hg, rfl⟩ := hf
    constructor
    · intro kv hkv
      simp only [List.mem_map] at hkv
      obtain ⟨kv0, hkv0, rfl⟩ := hkv
      rfl
    · intro kv hkv
      simp only [List.mem_map] at hkv
      obtain ⟨kv0, hkv0, rfl⟩ := hkv
      rfl
  · intro kv hkv
    simp only [Superadmin.closeModal, List.mem_map] at hkv
    obtain ⟨kv0, hkv0, rfl⟩ := hkv
    rfl
  · intro kv hkv
    simp only [Superadmin.closeModal, List.mem_map] at hkv
    obtain ⟨kv0, hkv0, rfl⟩ := hkv
    rfl

/-- C9 witness: a concrete open detail modal and college modal after closing:
deactivated, type/page/search reset, form and errors cleared. -/
theorem C9_close_resets_witness :
    (Superadmin.closeDetailModal
        { type := some ("students"), currentPage := 3, totalPages := 7,
          searchTerm := "acme" }).1.type = none ∧
    (Superadmin.closeDetailModal
        { type := some ("students"), currentPage := 3, totalPages := 7,
          searchTerm := "acme" }).1.currentPage = 1 ∧
    (Superadmin.closeDetailModal
        { type := some ("students"), currentPage := 3, totalPages := 7,
          searchTerm := "acme" }).1.searchTerm = "" ∧
    (Superadmin.closeModal
        { active := true, formValues := [("college-name", "Acme")],
          errorTexts := [("error-college-name", "College name is required")] }
        ).active = false := by
  have h := C9_close_resets { active := true, form := none }
    { active := true, formValues := [("college-name", "Acme")],
      errorTexts := [("error-college-name", "College name is required")] }
    { type := some ("students"), currentPage := 3, totalPages := 7,
      searchTerm := "acme" }
  exact ⟨h.2.2.2.2.2.2.1, h.2.2.2.2.2.2.2.1, h.2.2.2.2.2.2.2.2, h.2.2.1⟩

/-- C2 counterexample: a 403 response without a JSON content type makes the
superadmin apiCall throw a generic HTTP error and show an error toast — it
does not redirect — refuting "for every 403 response, the API Client
redirects ... and does not show a toast". -/
theorem C2_counterexample :
    (Superadmin.apiCall (fun _ => Except.error ("SyntaxError"))
        { status := 403, statusText := "Forbidden",
          contentType := some ("text/html".toList), bodyText := [] }).outcome
      = ApiOutcome.thrown ("HTTP 403: Forbidden") ∧
    (Superadmin.apiCall (fun _ => Except.error ("SyntaxError"))
        { status := 403, statusText := "Forbidden",
          contentType := some ("text/html".toList), bodyText := [] }).outcome
      ≠ ApiOutcome.redirectLogin ∧
    (Superadmin.apiCall (fun _ => Except.error ("SyntaxError"))
        { status := 403, statusText := "Forbidden",
          contentType := some ("text/html".toList), bodyText := [] }).toast
      ≠ none ∧
    (Superadmin.apiCall (fun _ => Except.ok { error := none, message := none, success := none })
        { status := 403, statusText := "Forbidden",
          contentType := some ("application/json".toList), bodyText := "null".toList }
        ).parsedBody = true := by
  refine ⟨?_, ?_, ?_, ?_⟩ <;> decide

/-- C2 (amended): the register-module apiCall checks 401/403 before reading
the body: it redirects to /admin/login/, parses no JSON, and shows no toast.
The superadmin apiCall redirects (also without toast) only when the content
type is JSON, and only after parsing the body; a 401/403 without a JSON
content type instead throws a generic HTTP error with a toast and never
redirects. -/
theorem C2_auth_redirect (r : HttpResponse) (parse : List Char → Except String Json)
    (hauth : r.status = 401 ∨ r.status = 403) :
    RegisterMod.apiCall parse r
      = { outcome := ApiOutcome.redirectLogin, parsedBody := false, toast := none } ∧
    (∀ data, contentTypeJson r = true → parse r.bodyText = Except.ok data →
      Superadmin.apiCall parse r
        = { outcome := ApiOutcome.redirectLogin, parsedBody := true, toast := none }) ∧
    (contentTypeJson r = false →
      (Superadmin.apiCall parse r).outcome.isError = true ∧
      (Superadmin.apiCall parse r).outcome ≠ ApiOutcome.redirectLogin ∧
      (Superadmin.apiCall parse r).toast.isSome = true) := by
  have h204 : ¬ r.status = 204 := by rcases hauth with h | h <;> omega
  have hok : respOk r = false := by
    unfold respOk
    rcases hauth with h | h <;> simp [h]
  refine ⟨?_, ?_, ?_⟩
  · unfold RegisterMod.apiCall
    rw [if_neg h204, if_pos hauth]
  · intro data hct hparse
    simp [Superadmin.apiCall, hct, hparse, hok, hauth]
  · intro hct
    refine ⟨?_, ?_, ?_⟩ <;>
      simp [Superadmin.apiCall, hct, hok, ApiOutcome.isError]

/-- C2 witness: a concrete 403 JSON response: both clients redirect without a
toast; the superadmin client has parsed the body first, the register client
has not. -/
theorem C2_auth_redirect_witness :
    ((403 : Nat) = 401 ∨ (403 : Nat) = 403) ∧
    RegisterMod.apiCall
        (fun _ => Except.ok { error := none, message := none, success := none })
        { status := 403, statusText := "Forbidden",
          contentType := some ("application/json".toList), bodyText := "null".toList }
      = { outcome := ApiOutcome.redirectLogin, parsedBody := false, toast := none } ∧
    Superadmin.apiCall
        (fun _ => Except.ok { error := none, message := none, success := none })
        { status := 403, statusText := "Forbidden",
          contentType := some ("application/json".toList), bodyText := "null".toList }
      = { outcome := ApiOutcome.redirectLogin, parsedBody := true, toast := none } := by
  have h := C2_auth_redirect
    { status := 403, statusText := "Forbidden",
      contentType := some ("application/json".toList), bodyText := "null".toList }
    (fun _ => Except.ok { error := none, message := none, success := none })
    (Or.inr rfl)
  exact ⟨Or.inr rfl, h.1, h.2.1 _ (by decide) rfl⟩

/-- C5 counterexample: a 403 response with an empty body is non-2xx, yet the
register apiCall does not throw: it redirects and returns null — refuting
"otherwise fails by throwing an Error". -/
theorem C5_counterexample :
    respOk { status := 403, statusText := "Forbidden",
             contentType := some ("application/json".toList), bodyText := [] } = false ∧
    ({ status := 403, statusText := "Forbidden",
        contentType := some ("application/json".toList), bodyText := [] }
          : HttpResponse).bodyText = [] ∧
    (RegisterMod.apiCall (fun _ => Except.error ("SyntaxError"))
        { status := 403, statusText := "Forbidden",
          contentType := some ("application/json".toList), bodyText := [] }).outcome
      = ApiOutcome.redirectLogin ∧
    (RegisterMod.apiCall (fun _ => Except.error ("SyntaxError"))
        { status := 403, statusText := "Forbidden",
          contentType := some ("application/json".toList), bodyText := [] }
        ).outcome.isError = false := by
  refine ⟨?_, ?_, ?_, ?_⟩ <;> decide

/-- C5 (amended): for the register-module apiCall, on every response whose
body is empty or not valid JSON the call returns a success result iff the
status was 2xx, and on a non-2xx status it fails by throwing an Error —
except 401 and 403, which redirect to /admin/login/ and return null without
throwing.  (The superadmin apiCall keys on the content-type header instead: a
2xx JSON-labelled response with an unparsable body throws rather than
succeeding.) -/
theorem C5_body_fallback (r : HttpResponse) (parse : List Char → Except String Json)
    (hbody : r.bodyText = [] ∨ ∃ e, parse r.bodyText = Except.error e) :
    (¬ (r.status = 401 ∨ r.status = 403) →
      ((RegisterMod.apiCall parse r).outcome.isSuccess = respOk r ∧
        (RegisterMod.apiCall parse r).outcome.isError = !respOk r)) ∧
    ((r.status = 401 ∨ r.status = 403) →
      (RegisterMod.apiCall parse r).outcome = ApiOutcome.redirectLogin) ∧
    (contentTypeJson r = true → (∃ e, parse r.bodyText = Except.error e) →
      (Superadmin.apiCall parse r).outcome.isError = true ∧
      (Superadmin.apiCall parse r).outcome.isSuccess = false) := by
  refine ⟨?_, ?_, ?_⟩
  · intro hna
    unfold RegisterMod.apiCall
    by_cases h204 : r.status = 204
    · have hok : respOk r = true := by
        unfold respOk
        simp [h204]
      rw [if_pos h204]
      simp [ApiOutcome.isSuccess, ApiOutcome.isError, hok]
    · rw [if_neg h204, if_neg hna]
      by_cases hct : contentTypeJson r = true
      · rw [if_neg (by simp [hct])]
        by_cases hempty : r.bodyText = []
        · rw [if_neg (by simp [hempty])]
          cases hok : respOk r <;>
            simp [hok, ApiOutcome.isSuccess, ApiOutcome.isError]
        · rw [if_pos hempty]
          rcases hbody with h | ⟨e, he⟩
          · exact absurd h hempty
          · rw [he]
            cases hok : respOk r <;>
              simp [hok, ApiOutcome.isSuccess, ApiOutcome.isError]
      · rw [if_pos hct]
        cases hok : respOk r <;>
          simp [hok, ApiOutcome.isSuccess, ApiOutcome.isError]
  · intro hauth
    have h204 : ¬ r.status = 204 := by rcases hauth with h | h <;> omega
    unfold RegisterMod.apiCall
    rw [if_neg h204, if_pos hauth]
  · rintro hct ⟨e, he⟩
    unfold Superadmin.apiCall
    rw [if_neg (by simp [hct]), he]
    exact ⟨rfl, rfl⟩

/-- C5 witness: a 200 response with an empty body succeeds, a 500 response
with an empty body throws. -/
theorem C5_body_fallback_witness :
    (RegisterMod.apiCall (fun _ => Except.error ("SyntaxError"))
        { status := 200, statusText := "OK",
          contentType := some ("application/json".toList), bodyText := [] }
        ).outcome.isSuccess = true ∧
    (RegisterMod.apiCall (fun _ => Except.error ("SyntaxError"))
        { status := 500, statusText := "Server Error",
          contentType := some ("application/json".toList), bodyText := [] }
        ).outcome.isError = true := by
  have h200 := (C5_body_fallback
    { status := 200, statusText := "OK",
      contentType := some ("application/json".toList), bodyText := [] }
    (fun _ => Except.error ("SyntaxError")) (Or.inl rfl)).1 (by decide)
  have h500 := (C5_body_fallback
    { status := 500, statusText := "Server Error",
      contentType := some ("application/json".toList), bodyText := [] }
    (fun _ => Except.error ("SyntaxError")) (Or.inl rfl)).1 (by decide)
  exact ⟨h200.1.trans (by decide), h500.2.trans (by decide)⟩

/-- C6 counterexample: the register-module buildApiEndpoint appends no
trailing slash, and the shared buildApiEndpoint truncates a query string that
itself contains a '?': for endpoint `x?a?b` only `?a` survives — refuting
"a trailing slash is appended ... and any query string (the part from '?'
onward) is preserved unchanged". -/
theorem C6_counterexample :
    RegisterMod.buildApiEndpoint ("s".toList) ("students".toList)
      = some ("/api/s/students".toList) ∧
    ("/api/s/students".toList : List Char) ≠ "/api/s/students/".toList ∧
    AdminCommon.buildApiEndpoint ("s".toList) ("x?a?b".toList)
      = "/api/s/x/?a".toList ∧
    ("/api/s/x/?a".toList : List Char) ≠ "/api/s/x/?a?b".toList := by
  refine ⟨?_, ?_, ?_, ?_⟩ <;> decide

/-- C6 (amended): with a nonempty tenant slug, the shared buildApiEndpoint
returns /api/slug/path/ for a '?'-free endpoint (trailing slash appended when
absent) and /api/slug/path/?query when the endpoint has a single '?' (the
query preserved after the slash); with two or more '?' only the part between
the first and second '?' survives.  The register-module buildApiEndpoint
interpolates the slug verbatim with no slash normalization. -/
theorem C6_endpoint_shape (slug ep pe q : List Char) (hslug : slug ≠ []) :
    (ep.head? ≠ some '/' → '?' ∉ ep →
      AdminCommon.buildApiEndpoint slug ep
        = "/api/".toList ++ slug ++ '/' ::
            (if ep.getLast? = some '/' then ep else ep ++ ['/'])) ∧
    ((pe ++ '?' :: q).head? ≠ some '/' → '?' ∉ pe → '?' ∉ q →
      AdminCommon.buildApiEndpoint slug (pe ++ '?' :: q)
        = "/api/".toList ++ slug ++ '/' ::
            ((if pe.getLast? = some '/' then pe else pe ++ ['/']) ++ '?' :: q)) ∧
    RegisterMod.buildApiEndpoint slug ep
      = some ("/api/".toList ++ slug ++ '/' :: ep) := by
  refine ⟨fun hh hq => AdminCommon.buildApiEndpoint_plain slug ep hslug hh hq,
    fun hh hp hq => AdminCommon.buildApiEndpoint_query slug pe q hslug hh hp hq, ?_⟩
  unfold RegisterMod.buildApiEndpoint
  rw [if_neg hslug]
  simp

/-- C6 witness: slug `s` with endpoints `students` and `students?page=2`. -/
theorem C6_endpoint_shape_witness :
    ("s".toList : List Char) ≠ [] ∧
    AdminCommon.buildApiEndpoint ("s".toList) ("students".toList)
      = "/api/s/students/".toList ∧
    AdminCommon.buildApiEndpoint ("s".toList) ("students?page=2".toList)
      = "/api/s/students/?page=2".toList ∧
    RegisterMod.buildApiEndpoint ("s".toList) ("students".toList)
      = some ("/api/s/students".toList) := by
  have h := C6_endpoint_shape ("s".toList) ("students".toList)
    ("students".toList) ("page=2".toList) (by decide)
  refine ⟨by decide, ?_, ?_, ?_⟩
  · exact (h.1 (by decide) (by decide)).trans (by decide)
  · have heq : ("students?page=2".toList : List Char)
        = "students".toList ++ '?' :: "page=2".toList := by decide
    rw [heq]
    exact (h.2.1 (by decide) (by decide) (by decide)).trans (by decide)
  · exact h.2.2.trans (by decide)

/-- A list with a member is not empty. -/
theorem isEmptyFalseOfMem {α : Type} {l : List α} {a : α} (h : a ∈ l) :
    l.isEmpty = false := by
  cases l
  · cases h
  · rfl

theorem collegeFormInvalid (d : Superadmin.CollegeFormData)
    (hv : jsTrim d.name = "" ∨ jsTrim d.owner_name = "" ∨
      isValidEmail d.owner_email = false ∨ jsTrim d.owner_phone = "" ∨
      jsTrim d.location = "" ∨ d.type = "") :
    (Superadmin.validateCollegeForm d).1 = false := by
  have h12 : (Superadmin.validateCollegeForm d).1
      = (Superadmin.validateCollegeForm d).2.isEmpty := by
    simp only [Superadmin.validateCollegeForm]
  rw [h12]
  rcases hv with h | h | h | h | h | h
  · exact isEmptyFalseOfMem (show ("college-name", "College name is required")
      ∈ (Superadmin.validateCollegeForm d).2 by
        simp [Superadmin.validateCollegeForm, Superadmin.collegeFormErrors, fieldCheck, h])
  · exact isEmptyFalseOfMem (show ("owner-name", "Owner/Principal name is required")
      ∈ (Superadmin.validateCollegeForm d).2 by
        simp [Superadmin.validateCollegeForm, Superadmin.collegeFormErrors, fieldCheck, h])
  · exact isEmptyFalseOfMem (show ("owner-email", "Valid email is required")
      ∈ (Superadmin.validateCollegeForm d).2 by
        simp [Superadmin.validateCollegeForm, Superadmin.collegeFormErrors, fieldCheck, h])
  · exact isEmptyFalseOfMem (show ("owner-phone", "Phone number is required")
      ∈ (Superadmin.validateCollegeForm d).2 by
        simp [Superadmin.validateCollegeForm, Superadmin.collegeFormErrors, fieldCheck, h])
  · exact isEmptyFalseOfMem (show ("location", "Location is required")
      ∈ (Superadmin.validateCollegeForm d).2 by
        simp [Superadmin.validateCollegeForm, Superadmin.collegeFormErrors, fieldCheck, h])
  · exact isEmptyFalseOfMem (show ("college-type", "College type is required")
      ∈ (Superadmin.validateCollegeForm d).2 by
        simp [Superadmin.validateCollegeForm, Superadmin.collegeFormErrors, fieldCheck, h])

set_option maxHeartbeats 1000000 in
theorem registrationFormInvalid (urlOk : String → Bool)
    (g : RegisterMod.RegistrationFormData)
    (hv : jsTrim g.school_name = "" ∨ g.school_type = "" ∨
      jsTrim g.school_address = "" ∨ jsTrim g.county_city = "" ∨
      jsTrim g.school_contact_number = "" ∨ isValidEmail g.school_email = false ∨
      jsTrim g.owner_full_name = "" ∨ jsTrim g.position = "" ∨
      isValidEmail g.owner_email = false ∨ jsTrim g.owner_phone = "" ∨
      jsTrim g.username = "" ∨ g.password = "") :
    (RegisterMod.validateForm urlOk g).1 = false := by
  have h12 : (RegisterMod.validateForm urlOk g).1
      = (RegisterMod.validateForm urlOk g).2.isEmpty := by
    simp only [RegisterMod.validateForm]
  rw [h12]
  rcases hv with h | h | h | h | h | h | h | h | h | h | h | h
  · exact isEmptyFalseOfMem (show ("school-name", "School name is required")
      ∈ (RegisterMod.validateForm urlOk g).2 by
        simp [RegisterMod.validateForm, RegisterMod.registrationFormErrors, fieldCheck, h])
  · exact isEmptyFalseOfMem (show ("school-type", "School type is required")
      ∈ (RegisterMod.validateForm urlOk g).2 by
        simp [RegisterMod.validateForm, RegisterMod.registrationFormErrors, fieldCheck, h])
  · exact isEmptyFalseOfMem (show ("school-address", "School address is required")
      ∈ (RegisterMod.validateForm urlOk g).2 by
        simp [RegisterMod.validateForm, RegisterMod.registrationFormErrors, fieldCheck, h])
  · exact isEmptyFalseOfMem (show ("county-city", "County/City is required")
      ∈ (RegisterMod.validateForm urlOk g).2 by
        simp [RegisterMod.validateForm, RegisterMod.registrationFormErrors, fieldCheck, h])
  · exact isEmptyFalseOfMem (show ("school-contact", "Contact number is required")
      ∈ (RegisterMod.validateForm urlOk g).2 by
        simp [RegisterMod.validateForm, RegisterMod.registrationFormErrors, fieldCheck, h])
  · exact isEmptyFalseOfMem (show ("school-email", "Valid school email is required")
      ∈ (RegisterMod.validateForm urlOk g).2 by
        simp [RegisterMod.validateForm, RegisterMod.registrationFormErrors, fieldCheck, h])
  · exact isEmptyFalseOfMem (show ("owner-name", "Owner full name is required")
      ∈ (RegisterMod.validateForm urlOk g).2 by
        simp [RegisterMod.validateForm, RegisterMod.registrationFormErrors, fieldCheck, h])
  · exact isEmptyFalseOfMem (show ("position", "Position is required")
      ∈ (RegisterMod.validateForm urlOk g).2 by
        simp [RegisterMod.validateForm, RegisterMod.registrationFormErrors, fieldCheck, h])
  · exact isEmptyFalseOfMem (show ("owner-email", "Valid email is required")
      ∈ (RegisterMod.validateForm urlOk g).2 by
        simp [RegisterMod.validateForm, RegisterMod.registrationFormErrors, fieldCheck, h])
  · exact isEmptyFalseOfMem (show ("owner-phone", "Phone number is required")
      ∈ (RegisterMod.validateForm urlOk g).2 by
        simp [RegisterMod.validateForm, RegisterMod.registrationFormErrors, fieldCheck, h])
  · exact isEmptyFalseOfMem (show ("username", "Username is required")
      ∈ (RegisterMod.validateForm urlOk g).2 by
        simp [RegisterMod.validateForm, RegisterMod.registrationFormErrors, fieldCheck, h])
  · exact isEmptyFalseOfMem (show ("password", "Password is required")
      ∈ (RegisterMod.validateForm urlOk g).2 by
        simp [RegisterMod.validateForm, RegisterMod.registrationFormErrors, fieldCheck, h])

/-- C7: a create-form submission with an empty required field (or an invalid
required email) populates that field's error element and issues no network
request — for the superadmin college form and for the registration form. -/
theorem C7_validation_blocks_net (cid : Option Nat) (d : Superadmin.CollegeFormData)
    (urlOk : String → Bool) (g : RegisterMod.RegistrationFormData) :
    (jsTrim d.name = "" →
      SubmitEffect.fieldError ("college-name") ("College name is required")
        ∈ Superadmin.handleCollegeSubmit cid d) ∧
    (jsTrim d.owner_name = "" →
      SubmitEffect.fieldError ("owner-name") ("Owner/Principal name is required")
        ∈ Superadmin.handleCollegeSubmit cid d) ∧
    (isValidEmail d.owner_email = false →
      SubmitEffect.fieldError ("owner-email") ("Valid email is required")
        ∈ Superadmin.handleCollegeSubmit cid d) ∧
    (jsTrim d.owner_phone = "" →
      SubmitEffect.fieldError ("owner-phone") ("Phone number is required")
        ∈ Superadmin.handleCollegeSubmit cid d) ∧
    (jsTrim d.location = "" →
      SubmitEffect.fieldError ("location") ("Location is required")
        ∈ Superadmin.handleCollegeSubmit cid d) ∧
    (d.type = "" →
      SubmitEffect.fieldError ("college-type") ("College type is required")
        ∈ Superadmin.handleCollegeSubmit cid d) ∧
    ((jsTrim d.name = "" ∨ jsTrim d.owner_name = "" ∨
        isValidEmail d.owner_email = false ∨ jsTrim d.owner_phone = "" ∨
        jsTrim d.location = "" ∨ d.type = "") →
      ∀ e ∈ Superadmin.handleCollegeSubmit cid d, e.isNetCall = false) ∧
    (jsTrim g.school_name = "" →
      SubmitEffect.fieldError ("school-name") ("School name is required")
        ∈ RegisterMod.handleRegistrationSubmit urlOk g) ∧
    (isValidEmail g.owner_email = false →
      SubmitEffect.fieldError ("owner-email") ("Valid email is required")
        ∈ RegisterMod.handleRegistrationSubmit urlOk g) ∧
    (g.password = "" →
      SubmitEffect.fieldError ("password") ("Password is required")
        ∈ RegisterMod.handleRegistrationSubmit urlOk g) ∧
    ((jsTrim g.school_name = "" ∨ g.school_type = "" ∨
        jsTrim g.school_address = "" ∨ jsTrim g.county_city = "" ∨
        jsTrim g.school_contact_number = "" ∨ isValidEmail g.school_email = false ∨
        jsTrim g.owner_full_name = "" ∨ jsTrim g.position = "" ∨
        isValidEmail g.owner_email = false ∨ jsTrim g.owner_phone = "" ∨
        jsTrim g.username = "" ∨ g.password = "") →
      ∀ e ∈ RegisterMod.handleRegistrationSubmit urlOk g, e.isNetCall = false) := by
  refine ⟨?_, ?_, ?_, ?_, ?_, ?_, ?_, ?_, ?_, ?_, ?_⟩
  · intro h
    simp [Superadmin.handleCollegeSubmit, Superadmin.validateCollegeForm,
      Superadmin.collegeFormErrors, fieldCheck, h]
  · intro h
    simp [Superadmin.handleCollegeSubmit, Superadmin.validateCollegeForm,
      Superadmin.collegeFormErrors, fieldCheck, h]
  · intro h
    simp [Superadmin.handleCollegeSubmit, Superadmin.validateCollegeForm,
      Superadmin.collegeFormErrors, fieldCheck, h]
  · intro h
    simp [Superadmin.handleCollegeSubmit, Superadmin.validateCollegeForm,
      Superadmin.collegeFormErrors, fieldCheck, h]
  · intro h
    simp [Superadmin.handleCollegeSubmit, Superadmin.validateCollegeForm,
      Superadmin.collegeFormErrors, fieldCheck, h]
  · intro h
    simp [Superadmin.handleCollegeSubmit, Superadmin.validateCollegeForm,
      Superadmin.collegeFormErrors, fieldCheck, h]
  · intro hv e he
    have hval := collegeFormInvalid d hv
    simp [Superadmin.handleCollegeSubmit, hval, List.mem_map] at he
    rcases he with rfl | ⟨x, hx, hmem, rfl⟩
    · rfl
    · rfl
  · intro h
    simp [RegisterMod.handleRegistrationSubmit, RegisterMod.validateForm,
      RegisterMod.registrationFormErrors, fieldCheck, h]
  · intro h
    simp [RegisterMod.handleRegistrationSubmit, RegisterMod.validateForm,
      RegisterMod.registrationFormErrors, fieldCheck, h]
  · intro h
    simp [RegisterMod.handleRegistrationSubmit, RegisterMod.validateForm,
      RegisterMod.registrationFormErrors, fieldCheck, h]
  · intro hv e he
    have hval := registrationFormInvalid urlOk g hv
    simp [RegisterMod.handleRegistrationSubmit, hval, List.mem_map] at he
    rcases he with rfl | ⟨x, hx, hmem, rfl⟩ | rfl
    · rfl
    · rfl
    · rfl

/-- C7 witness: a college form whose only flaw is an empty name: the
field-error effect fires and no network request appears among the effects. -/
theorem C7_validation_blocks_net_witness :
    ({ name := "", owner_name := "Jane Doe", owner_email := "jane@acme.edu",
       owner_phone := "0700000000", location := "Nairobi", type := "university",
       address := "", website := "", status := "pending" }
        : Superadmin.CollegeFormData).name = "" ∧
    SubmitEffect.fieldError ("college-name") ("College name is required")
      ∈ Superadmin.handleCollegeSubmit none
          { name := "", owner_name := "Jane Doe", owner_email := "jane@acme.edu",
            owner_phone := "0700000000", location := "Nairobi", type := "university",
            address := "", website := "", status := "pending" } ∧
    SubmitEffect.isNetCall (SubmitEffect.netCall ("POST") ("/colleges/")) = true ∧
    SubmitEffect.netCall ("POST") ("/colleges/")
      ∉ Superadmin.handleCollegeSubmit none
          { name := "", owner_name := "Jane Doe", owner_email := "jane@acme.edu",
            owner_phone := "0700000000", location := "Nairobi", type := "university",
            address := "", website := "", status := "pending" } := by
  have h := C7_validation_blocks_net none
    { name := "", owner_name := "Jane Doe", owner_email := "jane@acme.edu",
      owner_phone := "0700000000", location := "Nairobi", type := "university",
      address := "", website := "", status := "pending" }
    (fun _ => true)
    { school_name := "", school_type := "", school_address := "",
      county_city := "", school_contact_number := "", school_email := "",
      school_website := "", owner_full_name := "", position := "",
      owner_email := "", owner_phone := "", username := "", password := "" }
  refine ⟨by decide, h.1 (by decide), rfl, ?_⟩
  intro hmem
  have := h.2.2.2.2.2.2.1 (Or.inl rfl) _ hmem
  simp [SubmitEffect.isNetCall] at this

example : AdminCommon.numberedPages (AdminCommon.renderPagination 1 10)
    = [1, 2, 3, 10] := by decide
example : AdminCommon.numberedPages (AdminCommon.renderPagination 5 20)
    = [1, 3, 4, 5, 6, 7, 20] := by decide
example : AdminCommon.ellipsisCount (AdminCommon.renderPagination 5 20) = 2 := by decide
example : AdminCommon.ellipsisCount (AdminCommon.renderPagination 1 10) = 1 := by decide
example : AdminCommon.renderPagination 2 3 =
    [AdminCommon.PagToken.prevBtn false, AdminCommon.PagToken.pageBtn 1 false,
     AdminCommon.PagToken.pageBtn 2 true, AdminCommon.PagToken.pageBtn 3 false,
     AdminCommon.PagToken.nextBtn false] := by decide

end SmartCampus
